import Mathlib

/-
Verification of the access-control and identity-invite subsystem of the
Forum-Metallism application (src/app.py): role-gated registration with
creator/journalist invite redemption, password + time-based one-time-code
login, and the session/moderator gates.

The Flask/SQLAlchemy layer is embedded shallowly: the database is a record
of lists of rows, each request handler is a pure function from the database
and the submitted form to a result and the new database.  Third-party
library calls (werkzeug password hashing, pyotp TOTP) are modelled by
executable functions faithful to their documented contracts; each such
model carries a doc comment saying so.
-/

set_option autoImplicit false

namespace Forum

/-- Python truthiness of `request.form.get(name)`: `None` and the empty
string are falsy, every non-empty string is truthy (`bool(x)` in
`bool(request.form.get("is_moderator"))`, app.py line 208). -/
def pyTruthy : Option String → Bool
  | none => false
  | some s => !(s == "")

/-- Python `str.strip()` with no argument, as applied to the form fields
(app.py lines 203-210, 294): remove whitespace from both ends of the
string. -/
def pyStrip (s : String) : String :=
  String.mk (((s.toList.dropWhile Char.isWhitespace).reverse.dropWhile
    Char.isWhitespace).reverse)

/-- Modelled from the library contract of `werkzeug.security.generate_password_hash`
(app.py line 258): a one-way salted hash of the plaintext.  The model keeps the
defining property the application relies on: `check_password_hash` accepts
exactly the plaintext that was hashed. -/
def generate_password_hash (p : String) : String :=
  "pbkdf2-sha256$" ++ p

/-- Modelled from the library contract of `werkzeug.security.check_password_hash`
(app.py line 302): accepts `p` iff `h` is the stored hash of `p`. -/
def check_password_hash (h p : String) : Bool :=
  h == generate_password_hash p

/-- Python `str.split(sep)` for a one-character separator, on the character
list of the string: splits into the (possibly empty) groups between
occurrences of `sep`; the empty string yields `[[]]`, matching
`"".split("@") == [""]`. -/
def pySplit (sep : Char) : List Char → List (List Char)
  | [] => [[]]
  | c :: cs =>
    if c = sep then [] :: pySplit sep cs
    else
      match pySplit sep cs with
      | [] => [[c]]
      | g :: gs => (c :: g) :: gs

/-- `email.split("@")[-1]` (app.py line 233): the text after the last `'@'`
of the email; the whole email when it contains no `'@'`. -/
def emailDomain (email : String) : String :=
  String.mk ((pySplit '@' email.toList).getLastD [])

/-- The six decimal digits of `n % 10^6`, zero padded:
`str(code).zfill(6)` for a code already reduced modulo `10^6`. -/
def zfill6 (n : Nat) : String :=
  String.mk [Nat.digitChar (n / 100000 % 10), Nat.digitChar (n / 10000 % 10),
             Nat.digitChar (n / 1000 % 10), Nat.digitChar (n / 100 % 10),
             Nat.digitChar (n / 10 % 10), Nat.digitChar (n % 10)]

/-- Modelled from the spec: the compression step of the standard TOTP
derivation (HMAC-SHA1 of the decoded secret and the counter, RFC 6238),
which the application calls through `pyotp` and never inspects.  What the
application relies on is that it is a deterministic executable function of
the secret and the time-step counter; it is modelled here as an explicit
mixing fold over the secret's characters seeded by the counter. -/
def otpMix (secret : String) (counter : Nat) : Nat :=
  secret.toList.foldl (fun a c => (a * 131 + c.toNat + 17) % 1000003)
    ((counter % 1000003) * 2654435 % 1000003)

/-- `pyotp`'s `generate_otp`: the 6-digit zero-padded decimal code for a
secret at a given counter value. -/
def generate_otp (secret : String) (counter : Nat) : String :=
  zfill6 (otpMix secret counter % 1000000)

/-- `pyotp`'s `timecode`: the 30-second time step of a Unix time. -/
def timecode (t : Nat) : Nat := t / 30

/-- `pyotp.TOTP(secret).verify(code, valid_window=1)` (app.py line 306):
string comparison of the submitted code against the codes of the counters
at offsets −1, 0, +1 from the current time step (counters are `Nat` here;
real time steps are far from 0, so `tc - 1` is never truncated in the
regimes the theorems consider). -/
def totp_verify (secret : String) (tc : Nat) (code : String) : Bool :=
  code == generate_otp secret (tc - 1) ||
  code == generate_otp secret tc ||
  code == generate_otp secret (tc + 1)

/-- The `User` model (app.py lines 23-37): the columns the core logic
reads and writes. -/
structure User where
  id : Nat
  username : String
  email : Option String
  role : String
  password_hash : String
  otp_secret : String
  is_moderator : Bool
deriving DecidableEq, Repr

/-- The `CreatorInvite` model (app.py lines 40-48). -/
structure CreatorInvite where
  id : Nat
  domain_email : String
  invite_code : String
  is_used : Bool
deriving DecidableEq, Repr

/-- The `JournalistInvite` model (app.py lines 51-59). -/
structure JournalistInvite where
  id : Nat
  contact_email : Option String
  token : String
  is_used : Bool
deriving DecidableEq, Repr

/-- The persisted state the identity subsystem touches: the three tables,
each a list of rows in insertion order (`first()` returns the first
matching row). -/
structure DB where
  users : List User
  creator_invites : List CreatorInvite
  journalist_invites : List JournalistInvite
deriving DecidableEq, Repr

/-- The registration form fields read by `register` (app.py lines 199-210).
`role` and `is_moderator` are read without a default (`request.form.get`
returns `None` when absent); the rest default to the empty string. -/
structure RegisterForm where
  username : String
  email : String
  role : Option String
  password : String
  is_moderator : Option String
  creator_key : String
  journalist_token : String
deriving DecidableEq, Repr

/-- The distinct outcomes of a POST to `/register`, one per flash-and-redirect
exit of app.py lines 212-275; `success` carries the user id stored into the
session (line 270). -/
inductive RegisterResult where
  | success (user_id : Nat)
  | invalidRoleOrMissingFields
  | duplicateUsername
  | passwordRequired
  | duplicateEmail
  | creatorFieldsRequired
  | domainMismatch
  | invalidOrUsedCreatorInvite
  | invalidOrUsedJournalistInvite
deriving DecidableEq, Repr

/-- Whether a registration outcome is the success exit. -/
def RegisterResult.isSuccess : RegisterResult → Bool
  | .success _ => true
  | _ => false

/-- The distinct outcomes of a POST to `/login` (app.py lines 293-312);
`success` carries the user id stored into the session. -/
inductive LoginResult where
  | success (user_id : Nat)
  | userNotFound
  | invalidCredentials
  | invalidOrMissingCode
deriving DecidableEq, Repr

/-- Outcome of an access-gate wrapper: run the protected route, or flash a
message and redirect. -/
inductive GateOutcome where
  | allow
  | reject (flash : String) (redirect_to : String)
deriving DecidableEq, Repr

/-- `User.query.filter_by(username=...).first()`. -/
def findUserByUsername (db : DB) (username : String) : Option User :=
  db.users.find? (fun u => u.username == username)

/-- `User.query.filter_by(email=...).first()` for a non-null email value. -/
def findUserByEmail (db : DB) (email : String) : Option User :=
  db.users.find? (fun u => u.email == some email)

/-- The row filter of
`CreatorInvite.query.filter_by(domain_email=email, invite_code=creator_key, is_used=False)`
(app.py lines 238-240). -/
def creatorInviteMatches (email creator_key : String) (i : CreatorInvite) : Bool :=
  i.domain_email == email && i.invite_code == creator_key && !i.is_used

/-- The row filter of
`JournalistInvite.query.filter_by(token=invite_token, is_used=False)`
(app.py lines 247-249). -/
def journalistInviteMatches (invite_token : String) (i : JournalistInvite) : Bool :=
  i.token == invite_token && !i.is_used

/-- Apply `f` to the first element satisfying `p`, leaving everything else
in place: the effect of `invite.is_used = True` on the row returned by
`.first()` (app.py lines 265-267). -/
def markFirst {α : Type} (p : α → Bool) (f : α → α) : List α → List α
  | [] => []
  | a :: l => if p a then f a :: l else a :: markFirst p f l

/-- The `User(...)` row built at app.py lines 254-261: trimmed username,
`email or None`, the role string, the werkzeug hash of the password, the
freshly generated otp secret, and the truthiness of the `is_moderator`
form field. -/
def newUserOf (f : RegisterForm) (otpSecret : String) (nextId : Nat) : User :=
  { id := nextId
    username := (pyStrip f.username)
    email := if (pyStrip f.email) = "" then none else some (pyStrip f.email)
    role := f.role.getD ""
    password_hash := generate_password_hash f.password
    otp_secret := otpSecret
    is_moderator := pyTruthy f.is_moderator }

/-- The single commit at app.py lines 254-270 once every check has passed:
add the new user row and, for a creator or journalist registration, flip
the matched invite's `is_used` flag, all in one transaction. -/
def commitRegistration (db : DB) (f : RegisterForm) (otpSecret : String) (nextId : Nat) :
    RegisterResult × DB :=
  (.success nextId,
   { users := db.users ++ [newUserOf f otpSecret nextId]
     creator_invites :=
       if f.role = some "creator" then
         markFirst (creatorInviteMatches (pyStrip f.email) (pyStrip f.creator_key))
           (fun i => { i with is_used := true }) db.creator_invites
       else db.creator_invites
     journalist_invites :=
       if f.role = some "journalist" then
         markFirst (journalistInviteMatches (pyStrip f.journalist_token))
           (fun i => { i with is_used := true }) db.journalist_invites
       else db.journalist_invites })

/-- Whether the submitted role is in the allowed set
(`role not in {"reader", "creator", "journalist"}`, app.py line 212;
an absent role is not in the set). -/
def validRole (r : Option String) : Prop :=
  r = some "reader" ∨ r = some "creator" ∨ r = some "journalist"

instance (r : Option String) : Decidable (validRole r) := by
  unfold validRole; infer_instance

/-- The POST branch of `register` (app.py lines 202-275).  `otpSecret` is
the value of `pyotp.random_base32()` (line 207) and `nextId` the id the
store assigns to the new row; both are inputs of the embedding.  Every
rejection exit returns the database unchanged; the success exit commits the
user row and the invite flip together. -/
def register (db : DB) (f : RegisterForm) (otpSecret : String) (nextId : Nat) :
    RegisterResult × DB :=
  if (pyStrip f.username) = "" ∨ ¬ validRole f.role then (.invalidRoleOrMissingFields, db)
  else if (findUserByUsername db (pyStrip f.username)).isSome then (.duplicateUsername, db)
  else if f.password = "" then (.passwordRequired, db)
  else if (pyStrip f.email) ≠ "" ∧ (findUserByEmail db (pyStrip f.email)).isSome then
    (.duplicateEmail, db)
  else if f.role = some "creator" then
    if (pyStrip f.email) = "" ∨ (pyStrip f.creator_key) = "" then (.creatorFieldsRequired, db)
    else if (pyStrip f.username) ≠ emailDomain (pyStrip f.email) then (.domainMismatch, db)
    else if (db.creator_invites.find?
        (creatorInviteMatches (pyStrip f.email) (pyStrip f.creator_key))).isNone then
      (.invalidOrUsedCreatorInvite, db)
    else commitRegistration db f otpSecret nextId
  else if f.role = some "journalist" then
    if (db.journalist_invites.find?
        (journalistInviteMatches (pyStrip f.journalist_token))).isNone then
      (.invalidOrUsedJournalistInvite, db)
    else commitRegistration db f otpSecret nextId
  else commitRegistration db f otpSecret nextId

/-- The POST branch of `login` (app.py lines 293-312): resolve the user by
trimmed username, then the password check, then the one-time-code check
against the current 30-second time step of `t` (Unix seconds). -/
def login (db : DB) (username password otp_code : String) (t : Nat) : LoginResult :=
  match findUserByUsername db (pyStrip username) with
  | none => .userNotFound
  | some user =>
    if !(check_password_hash user.password_hash password) then .invalidCredentials
    else if otp_code = "" ∨ !(totp_verify user.otp_secret (timecode t) otp_code) then
      .invalidOrMissingCode
    else .success user.id

/-- The `login_required` wrapper (app.py lines 141-149): with no resolved
user, flash and redirect to the login page, otherwise run the route. -/
def login_required_check (u : Option User) : GateOutcome :=
  match u with
  | none => .reject "Please log in to continue." "login"
  | some _ => .allow

/-- The `moderator_required` wrapper (app.py lines 152-161):
`if not user or not user.is_moderator`, flash "Moderator permissions
required." and redirect to the index, otherwise run the route. -/
def moderator_required_check (u : Option User) : GateOutcome :=
  match u with
  | none => .reject "Moderator permissions required." "index"
  | some user =>
    if user.is_moderator then .allow
    else .reject "Moderator permissions required." "index"

/-- The `Unauthenticated` outcome of the spec's taxonomy: the rejection
`login_required` produces for a request with no session. -/
def unauthenticatedOutcome : GateOutcome :=
  .reject "Please log in to continue." "login"

/-- The `Forbidden` outcome of the spec's taxonomy: the rejection
`moderator_required` produces. -/
def forbiddenOutcome : GateOutcome :=
  .reject "Moderator permissions required." "index"

/-- Concrete fixture: a pending creator invite for `alice@acme.com`. -/
def acmeInvite : CreatorInvite :=
  { id := 1, domain_email := "alice@acme.com", invite_code := "K1", is_used := false }

/-- Concrete fixture: store holding only the acme creator invite. -/
def dbAcme : DB :=
  { users := [], creator_invites := [acmeInvite], journalist_invites := [] }

/-- Concrete fixture: creator registration whose username equals the email
domain `acme.com`. -/
def formAcme : RegisterForm :=
  { username := "acme.com", email := "alice@acme.com", role := some "creator",
    password := "pw", is_moderator := none, creator_key := "K1",
    journalist_token := "" }

/-- Concrete fixture: the same creator registration with username `bob`. -/
def formBob : RegisterForm := { formAcme with username := "bob" }

/-- Concrete fixture: a registered reader named `bob`. -/
def bobUser : User :=
  { id := 1, username := "bob", email := none, role := "reader",
    password_hash := generate_password_hash "pw", otp_secret := "S1",
    is_moderator := false }

/-- Concrete fixture: store already holding the reader `bob`. -/
def dbBob : DB :=
  { users := [bobUser], creator_invites := [], journalist_invites := [] }

/-- Concrete fixture: second registration of the username `bob`, with an
out-of-set role value. -/
def formBobWizard : RegisterForm :=
  { username := "bob", email := "", role := some "wizard", password := "pw2",
    is_moderator := none, creator_key := "", journalist_token := "" }

/-- Concrete fixture: second registration of the username `bob` with a
valid role. -/
def formBobReader : RegisterForm := { formBobWizard with role := some "reader" }

/-- Concrete fixture: a one-time-code secret. -/
def totpSecret : String := "JBSWY3DPEHPK3PXP"

/-- Concrete fixture: a registered reader with a known password and secret. -/
def neo : User :=
  { id := 7, username := "neo", email := none, role := "reader",
    password_hash := generate_password_hash "pw", otp_secret := totpSecret,
    is_moderator := false }

/-- Concrete fixture: store holding only the user `neo`. -/
def dbLogin : DB :=
  { users := [neo], creator_invites := [], journalist_invites := [] }

/-- Concrete fixture: a user carrying the moderator flag. -/
def modUser : User :=
  { id := 2, username := "mona", email := none, role := "reader",
    password_hash := generate_password_hash "pw", otp_secret := "S2",
    is_moderator := true }

/-- Concrete fixture: a user without the moderator flag. -/
def plainUser : User :=
  { id := 3, username := "paul", email := none, role := "reader",
    password_hash := generate_password_hash "pw", otp_secret := "S3",
    is_moderator := false }

/-- Concrete fixture: a creator invite whose bound email has no `'@'`. -/
def inviteNoAt : CreatorInvite :=
  { id := 2, domain_email := "acme.com", invite_code := "K2", is_used := false }

/-- Concrete fixture: store holding only the `'@'`-less creator invite. -/
def dbNoAt : DB :=
  { users := [], creator_invites := [inviteNoAt], journalist_invites := [] }

/-- Concrete fixture: creator registration with an `'@'`-less email and the
username equal to the whole email string. -/
def formNoAt : RegisterForm :=
  { username := "acme.com", email := "acme.com", role := some "creator",
    password := "pw", is_moderator := none, creator_key := "K2",
    journalist_token := "" }

/-- Concrete fixture: the empty store. -/
def dbEmpty : DB :=
  { users := [], creator_invites := [], journalist_invites := [] }

/-- Concrete fixture: a reader registration submitting the `is_moderator`
form field. -/
def formModReader : RegisterForm :=
  { username := "eve", email := "", role := some "reader", password := "pw",
    is_moderator := some "on", creator_key := "", journalist_token := "" }

theorem mk_toList (s : String) : String.mk s.toList = s := rfl

theorem pySplit_ne_nil (sep : Char) (l : List Char) : pySplit sep l ≠ [] := by
  induction l with
  | nil => simp [pySplit]
  | cons c cs ih =>
    unfold pySplit
    split
    · simp
    · split <;> simp

theorem pySplit_no_sep (sep : Char) (l : List Char) (h : sep ∉ l) :
    pySplit sep l = [l] := by
  induction l with
  | nil => rfl
  | cons c cs ih =>
    simp only [List.mem_cons, not_or] at h
    have hc : ¬ c = sep := fun hcc => h.1 hcc.symm
    simp only [pySplit, if_neg hc, ih h.2]

theorem pySplit_two_of_mem (sep : Char) (l : List Char) (h : sep ∈ l) :
    2 ≤ (pySplit sep l).length := by
  induction l with
  | nil => cases h
  | cons c cs ih =>
    unfold pySplit
    by_cases hc : c = sep
    · rw [if_pos hc]
      cases hps : pySplit sep cs with
      | nil => exact absurd hps (pySplit_ne_nil sep cs)
      | cons g gs => simp [hps]
    · rw [if_neg hc]
      have hcs : sep ∈ cs := by
        cases List.mem_cons.mp h with
        | inl h' => exact absurd h'.symm hc
        | inr h' => exact h'
      cases hps : pySplit sep cs with
      | nil => exact absurd hps (pySplit_ne_nil sep cs)
      | cons g gs =>
        have h2 := ih hcs
        rw [hps] at h2
        simpa using h2

theorem getLastD_irrel {α : Type} (x : α) (l : List α) (d₁ d₂ : α) :
    (x :: l).getLastD d₁ = (x :: l).getLastD d₂ := by
  rw [List.getLastD_cons, List.getLastD_cons]

theorem pySplit_append_sep (sep : Char) (a b : List Char) (hb : sep ∉ b) :
    (pySplit sep (a ++ sep :: b)).getLastD [] = b := by
  induction a with
  | nil =>
    simp only [List.nil_append, pySplit, if_pos rfl, pySplit_no_sep sep b hb]
    rfl
  | cons c a' ih =>
    by_cases hc : c = sep
    · have hsplit : pySplit sep ((c :: a') ++ sep :: b) =
          [] :: pySplit sep (a' ++ sep :: b) := by
        simp only [List.cons_append, pySplit, if_pos hc]
        rfl
      rw [hsplit, List.getLastD_cons]
      exact ih
    · simp only [List.cons_append, pySplit, if_neg hc]
      cases hps : pySplit sep (a' ++ sep :: b) with
      | nil => exact absurd hps (pySplit_ne_nil _ _)
      | cons g gs =>
        cases gs with
        | nil =>
          have h2 := pySplit_two_of_mem sep (a' ++ sep :: b)
            (List.mem_append_right a' (List.mem_cons_self sep b))
          rw [hps] at h2
          simp at h2
        | cons g2 gs' =>
          rw [List.getLastD_cons]
          have hlast := ih
          rw [hps, List.getLastD_cons] at hlast
          rw [← hlast]
          exact getLastD_irrel g2 gs' (c :: g) g

theorem markFirst_decomp {α : Type} (p : α → Bool) (f : α → α) (l : List α) (i : α)
    (h : l.find? p = some i) :
    ∃ pre post, l = pre ++ i :: post ∧ (∀ j ∈ pre, p j = false) ∧ p i = true ∧
      markFirst p f l = pre ++ f i :: post := by
  induction l with
  | nil => simp [List.find?] at h
  | cons a l ih =>
    by_cases hp : p a = true
    · rw [List.find?_cons_of_pos l hp] at h
      obtain rfl : a = i := by injection h
      refine ⟨[], l, rfl, ?_, hp, ?_⟩
      · exact fun j hj => absurd hj (List.not_mem_nil j)
      · simp [markFirst, hp]
    · rw [List.find?_cons_of_neg l hp] at h
      obtain ⟨pre, post, h1, h2, h3, h4⟩ := ih h
      refine ⟨a :: pre, post, by rw [List.cons_append, h1], ?_, h3, ?_⟩
      · intro j hj
        cases List.mem_cons.mp hj with
        | inl h' => exact h' ▸ Bool.eq_false_iff.mpr hp
        | inr h' => exact h2 j h'
      · simp [markFirst, hp, h4]

theorem register_fail_frame (db : DB) (f : RegisterForm) (s : String) (n : Nat)
    (h : (register db f s n).1.isSuccess = false) :
    (register db f s n).2 = db := by
  unfold register at h ⊢
  split_ifs at h ⊢ <;>
    first
    | rfl
    | simp [commitRegistration, RegisterResult.isSuccess] at h

theorem register_success_shape (db : DB) (f : RegisterForm) (s : String) (n : Nat)
    (h : (register db f s n).1.isSuccess = true) :
    (register db f s n).1 = .success n
  ∧ (register db f s n).2.users = db.users ++ [newUserOf f s n]
  ∧ findUserByUsername db (pyStrip f.username) = none
  ∧ pyStrip f.username ≠ ""
  ∧ f.password ≠ ""
  ∧ validRole f.role
  ∧ (f.role = some "creator" →
      ∃ i, db.creator_invites.find?
        (creatorInviteMatches (pyStrip f.email) (pyStrip f.creator_key)) = some i)
  ∧ (f.role = some "creator" →
      (register db f s n).2.creator_invites =
        markFirst (creatorInviteMatches (pyStrip f.email) (pyStrip f.creator_key))
          (fun i => { i with is_used := true }) db.creator_invites)
  ∧ (f.role ≠ some "creator" →
      (register db f s n).2.creator_invites = db.creator_invites)
  ∧ (f.role = some "journalist" →
      ∃ i, db.journalist_invites.find?
        (journalistInviteMatches (pyStrip f.journalist_token)) = some i)
  ∧ (f.role = some "journalist" →
      (register db f s n).2.journalist_invites =
        markFirst (journalistInviteMatches (pyStrip f.journalist_token))
          (fun i => { i with is_used := true }) db.journalist_invites)
  ∧ (f.role ≠ some "journalist" →
      (register db f s n).2.journalist_invites = db.journalist_invites) := by
  unfold register at h ⊢
  split_ifs at h ⊢ with h1 h2 h3 h4 h5 h6 h7 h8 h9 h10
  all_goals try simp [RegisterResult.isSuccess] at h
  · -- creator commit branch
    obtain ⟨hu, hv⟩ := not_or.mp h1
    refine ⟨rfl, rfl, Option.not_isSome_iff_eq_none.mp h2, hu, h3, not_not.mp hv,
      ?_, ?_, ?_, ?_, ?_, ?_⟩
    · exact fun _ => Option.ne_none_iff_exists'.mp (fun hnone => h8 (by rw [hnone]; rfl))
    · intro _
      show (if f.role = some "creator" then _ else _) = _
      rw [if_pos h5]
    · exact fun hne => absurd h5 hne
    · intro hj
      exact absurd (h5.symm.trans hj) (by decide)
    · intro hj
      exact absurd (h5.symm.trans hj) (by decide)
    · intro _
      show (if f.role = some "journalist" then _ else _) = _
      rw [if_neg (h5 ▸ (by decide : ¬ (some "creator" = some "journalist")))]
  · -- journalist commit branch
    obtain ⟨hu, hv⟩ := not_or.mp h1
    refine ⟨rfl, rfl, Option.not_isSome_iff_eq_none.mp h2, hu, h3, not_not.mp hv,
      ?_, ?_, ?_, ?_, ?_, ?_⟩
    · exact fun hc => absurd hc h5
    · exact fun hc => absurd hc h5
    · intro _
      show (if f.role = some "creator" then _ else _) = _
      rw [if_neg h5]
    · exact fun _ => Option.ne_none_iff_exists'.mp (fun hnone => h10 (by rw [hnone]; rfl))
    · intro _
      show (if f.role = some "journalist" then _ else _) = _
      rw [if_pos h9]
    · exact fun hne => absurd h9 hne
  · -- reader (no invite) commit branch
    obtain ⟨hu, hv⟩ := not_or.mp h1
    refine ⟨rfl, rfl, Option.not_isSome_iff_eq_none.mp h2, hu, h3, not_not.mp hv,
      ?_, ?_, ?_, ?_, ?_, ?_⟩
    · exact fun hc => absurd hc h5
    · exact fun hc => absurd hc h5
    · intro _
      show (if f.role = some "creator" then _ else _) = _
      rw [if_neg h5]
    · exact fun hj => absurd hj h9
    · exact fun hj => absurd hj h9
    · intro _
      show (if f.role = some "journalist" then _ else _) = _
      rw [if_neg h9]

theorem register_creator_gate (db : DB) (f : RegisterForm) (s : String) (n : Nat)
    (hrole : f.role = some "creator")
    (hu : pyStrip f.username ≠ "")
    (hdupU : findUserByUsername db (pyStrip f.username) = none)
    (hpw : f.password ≠ "")
    (hdupE : findUserByEmail db (pyStrip f.email) = none)
    (he : pyStrip f.email ≠ "")
    (hk : pyStrip f.creator_key ≠ "")
    (hinv : (db.creator_invites.find?
        (creatorInviteMatches (pyStrip f.email) (pyStrip f.creator_key))).isSome = true) :
    ((register db f s n).1 = .success n ↔
      pyStrip f.username = emailDomain (pyStrip f.email))
  ∧ (pyStrip f.username ≠ emailDomain (pyStrip f.email) →
      (register db f s n).1 = .domainMismatch ∧ (register db f s n).2 = db) := by
  have hvr : validRole f.role := Or.inr (Or.inl hrole)
  unfold register
  rw [if_neg (by simp [hu, hvr] :
    ¬ (pyStrip f.username = "" ∨ ¬ validRole f.role))]
  rw [if_neg (by simp [hdupU] :
    ¬ (findUserByUsername db (pyStrip f.username)).isSome = true)]
  rw [if_neg hpw]
  rw [if_neg (by simp [hdupE] :
    ¬ (pyStrip f.email ≠ "" ∧ (findUserByEmail db (pyStrip f.email)).isSome = true))]
  rw [if_pos hrole]
  rw [if_neg (by simp [he, hk] :
    ¬ (pyStrip f.email = "" ∨ pyStrip f.creator_key = ""))]
  by_cases hd : pyStrip f.username = emailDomain (pyStrip f.email)
  · rw [if_neg (by simp [hd])]
    rw [if_neg (by obtain ⟨i, hfi⟩ := Option.isSome_iff_exists.mp hinv; rw [hfi]; simp)]
    exact ⟨⟨fun _ => hd, fun _ => rfl⟩, fun hne => absurd hd hne⟩
  · rw [if_pos hd]
    refine ⟨⟨fun hcon => ?_, fun heq => absurd heq hd⟩, fun _ => ⟨rfl, rfl⟩⟩
    simp at hcon

/-- C1: for a creator registration attempt that passes the generic username,
duplicate, password and presence checks and has a matching unredeemed
CreatorInvite for the exact (email, code) pair, registration succeeds if and
only if the submitted username equals the email's domain substring (the text
after the `'@'`, computed as `email.split("@")[-1]`); a mismatch is rejected
with the domain-mismatch outcome — so email `alice@acme.com` with username
`bob` is rejected while username `acme.com` is accepted. -/
theorem creator_registration_domain_iff (db : DB) (f : RegisterForm) (s : String)
    (n : Nat)
    (hrole : f.role = some "creator")
    (hu : pyStrip f.username ≠ "")
    (hdupU : findUserByUsername db (pyStrip f.username) = none)
    (hpw : f.password ≠ "")
    (hdupE : findUserByEmail db (pyStrip f.email) = none)
    (he : pyStrip f.email ≠ "")
    (hk : pyStrip f.creator_key ≠ "")
    (hinv : (db.creator_invites.find?
        (creatorInviteMatches (pyStrip f.email) (pyStrip f.creator_key))).isSome
        = true) :
    ((register db f s n).1 = .success n ↔
      pyStrip f.username = emailDomain (pyStrip f.email))
  ∧ (pyStrip f.username ≠ emailDomain (pyStrip f.email) →
      (register db f s n).1 = .domainMismatch) := by
  obtain ⟨h1, h2⟩ := register_creator_gate db f s n hrole hu hdupU hpw hdupE he hk hinv
  exact ⟨h1, fun hne => (h2 hne).1⟩

/-- Witness for C1 at the spec's worked example: username `acme.com` is
accepted and username `bob` is rejected with the domain mismatch. -/
theorem creator_registration_domain_iff_witness :
    (register dbAcme formAcme "SECRET" 1).1 = .success 1
  ∧ (register dbAcme formBob "SECRET" 1).1 = .domainMismatch := by
  constructor
  · exact (creator_registration_domain_iff dbAcme formAcme "SECRET" 1 rfl
      (by decide) (by decide) (by decide) (by decide) (by decide) (by decide)
      (by decide)).1.mpr (by decide)
  · exact (creator_registration_domain_iff dbAcme formBob "SECRET" 1 rfl
      (by decide) (by decide) (by decide) (by decide) (by decide) (by decide)
      (by decide)).2 (by decide)

/-- C2: registration is transactional.  Every rejected attempt leaves the
store exactly as it was (no user row, no consumed invite); every successful
attempt appends exactly the one new user row and, for a creator or
journalist attempt, flips the first matching invite's used flag from false
to true in the same state transition, leaving every other row unchanged;
and an invite whose used flag is already true never matches a redemption
query again, so each invite is consumed by at most one registration. -/
theorem register_transactional (db : DB) (f : RegisterForm) (s : String) (n : Nat) :
    ((register db f s n).1.isSuccess = false → (register db f s n).2 = db)
  ∧ ((register db f s n).1.isSuccess = true →
      (register db f s n).2.users = db.users ++ [newUserOf f s n]
    ∧ (f.role = some "creator" →
        ∃ pre i post,
          db.creator_invites = pre ++ i :: post
        ∧ (∀ j ∈ pre,
            creatorInviteMatches (pyStrip f.email) (pyStrip f.creator_key) j = false)
        ∧ creatorInviteMatches (pyStrip f.email) (pyStrip f.creator_key) i = true
        ∧ i.is_used = false
        ∧ (register db f s n).2.creator_invites =
            pre ++ { i with is_used := true } :: post
        ∧ (register db f s n).2.journalist_invites = db.journalist_invites)
    ∧ (f.role = some "journalist" →
        ∃ pre i post,
          db.journalist_invites = pre ++ i :: post
        ∧ (∀ j ∈ pre,
            journalistInviteMatches (pyStrip f.journalist_token) j = false)
        ∧ journalistInviteMatches (pyStrip f.journalist_token) i = true
        ∧ i.is_used = false
        ∧ (register db f s n).2.journalist_invites =
            pre ++ { i with is_used := true } :: post
        ∧ (register db f s n).2.creator_invites = db.creator_invites)
    ∧ (f.role ≠ some "creator" →
        (register db f s n).2.creator_invites = db.creator_invites)
    ∧ (f.role ≠ some "journalist" →
        (register db f s n).2.journalist_invites = db.journalist_invites))
  ∧ (∀ (i : CreatorInvite) (e k : String), i.is_used = true →
      creatorInviteMatches e k i = false)
  ∧ (∀ (i : JournalistInvite) (tok : String), i.is_used = true →
      journalistInviteMatches tok i = false) := by
  refine ⟨register_fail_frame db f s n, ?_, ?_, ?_⟩
  · intro h
    obtain ⟨-, husers, -, -, -, -, hcex, hcmark, hcun, hjex, hjmark, hjun⟩ :=
      register_success_shape db f s n h
    refine ⟨husers, ?_, ?_, hcun, hjun⟩
    · intro hc
      obtain ⟨i, hfi⟩ := hcex hc
      obtain ⟨pre, post, hl, hpre, hpi, hmark⟩ :=
        markFirst_decomp _ (fun j => { j with is_used := true }) _ i hfi
      refine ⟨pre, i, post, hl, hpre, hpi, ?_, ?_, ?_⟩
      · have hpi' := hpi
        simp only [creatorInviteMatches, Bool.and_eq_true, Bool.not_eq_true'] at hpi'
        exact hpi'.2
      · rw [hcmark hc, hmark]
      · exact hjun (fun hcontra => absurd (hc.symm.trans hcontra) (by decide))
    · intro hj
      obtain ⟨i, hfi⟩ := hjex hj
      obtain ⟨pre, post, hl, hpre, hpi, hmark⟩ :=
        markFirst_decomp _ (fun j => { j with is_used := true }) _ i hfi
      refine ⟨pre, i, post, hl, hpre, hpi, ?_, ?_, ?_⟩
      · have hpi' := hpi
        simp only [journalistInviteMatches, Bool.and_eq_true, Bool.not_eq_true'] at hpi'
        exact hpi'.2
      · rw [hjmark hj, hmark]
      · exact hcun (fun hcontra => absurd (hj.symm.trans hcontra) (by decide))
  · intro i e k hused
    simp [creatorInviteMatches, hused]
  · intro i tok hused
    simp [journalistInviteMatches, hused]

/-- Witness for C2: the rejected attempt (`bob`, domain mismatch) leaves the
store unchanged, while the successful attempt appends exactly the new user
row and flips the single acme invite to used. -/
theorem register_transactional_witness :
    (register dbAcme formBob "SECRET" 1).2 = dbAcme
  ∧ (register dbAcme formAcme "SECRET" 1).2.users =
      dbAcme.users ++ [newUserOf formAcme "SECRET" 1]
  ∧ (∃ pre i post,
      dbAcme.creator_invites = pre ++ i :: post
    ∧ (∀ j ∈ pre,
        creatorInviteMatches (pyStrip formAcme.email) (pyStrip formAcme.creator_key) j
          = false)
    ∧ creatorInviteMatches (pyStrip formAcme.email) (pyStrip formAcme.creator_key) i
        = true
    ∧ i.is_used = false
    ∧ (register dbAcme formAcme "SECRET" 1).2.creator_invites =
        pre ++ { i with is_used := true } :: post
    ∧ (register dbAcme formAcme "SECRET" 1).2.journalist_invites =
        dbAcme.journalist_invites) := by
  refine ⟨(register_transactional dbAcme formBob "SECRET" 1).1 (by decide), ?_, ?_⟩
  · exact ((register_transactional dbAcme formAcme "SECRET" 1).2.1 (by decide)).1
  · exact ((register_transactional dbAcme formAcme "SECRET" 1).2.1 (by decide)).2.1 rfl

/-- C3 counterexample: an unauthenticated request through `moderator_required`
receives the moderator-permissions rejection (the Forbidden outcome, redirect
to the index) — not the Unauthenticated outcome of `login_required` — so the
claim that the unauthenticated case fails with Unauthenticated before the
moderator flag is checked is false on the code. -/
theorem moderator_gate_counterexample :
    moderator_required_check none = forbiddenOutcome
  ∧ moderator_required_check none ≠ unauthenticatedOutcome
  ∧ login_required_check none = unauthenticatedOutcome := by
  decide

/-- C3 (amended): `moderator_required` rejects a non-moderator authenticated
user with the Forbidden outcome, and rejects an unauthenticated request with
that same Forbidden outcome; it never produces the Unauthenticated outcome,
and it admits exactly the authenticated moderators. -/
theorem moderator_gate_amended (u : Option User) :
    (∀ user : User, user.is_moderator = false →
      moderator_required_check (some user) = forbiddenOutcome)
  ∧ moderator_required_check none = forbiddenOutcome
  ∧ moderator_required_check u ≠ unauthenticatedOutcome
  ∧ (∀ user : User, user.is_moderator = true →
      moderator_required_check (some user) = .allow) := by
  refine ⟨?_, rfl, ?_, ?_⟩
  · intro user hm
    simp only [moderator_required_check, hm]
    rfl
  · cases u with
    | none => decide
    | some user =>
      cases hm : user.is_moderator with
      | false =>
        rw [show moderator_required_check (some user) = forbiddenOutcome by
          simp only [moderator_required_check, hm]
          rfl]
        decide
      | true =>
        rw [show moderator_required_check (some user) = .allow by
          simp [moderator_required_check, hm]]
        decide
  · intro user hm
    simp [moderator_required_check, hm]

/-- Witness for C3's amended statement at concrete users. -/
theorem moderator_gate_amended_witness :
    moderator_required_check (some plainUser) = forbiddenOutcome
  ∧ moderator_required_check none ≠ unauthenticatedOutcome
  ∧ moderator_required_check (some modUser) = .allow := by
  exact ⟨(moderator_gate_amended (some plainUser)).1 plainUser rfl,
    (moderator_gate_amended none).2.2.1,
    (moderator_gate_amended (some modUser)).2.2.2 modUser rfl⟩

/-- C4 counterexample: with the username `bob` already registered, a second
attempt with the same username but an out-of-set role value is rejected with
the role/missing-fields outcome, not with DuplicateUsername — so the claim
that the second attempt fails with DuplicateUsername regardless of all other
form fields is false on the code (the role check runs first). -/
theorem duplicate_username_counterexample :
    (findUserByUsername dbBob (pyStrip formBobWizard.username)).isSome = true
  ∧ (register dbBob formBobWizard "S2" 2).1 = .invalidRoleOrMissingFields
  ∧ (register dbBob formBobWizard "S2" 2).1 ≠ .duplicateUsername := by
  decide

/-- C4 (amended): a registration attempt whose (stripped) username already
belongs to an existing user is always rejected, and it is rejected with
DuplicateUsername whenever the submitted role is in the allowed set and the
username is non-empty — regardless of every other form field; with an
out-of-set role the rejection is the role/missing-fields outcome instead. -/
theorem duplicate_username_rejected (db : DB) (f : RegisterForm) (s : String) (n : Nat)
    (hex : (findUserByUsername db (pyStrip f.username)).isSome = true) :
    (register db f s n).1.isSuccess = false
  ∧ (pyStrip f.username ≠ "" → validRole f.role →
      (register db f s n).1 = .duplicateUsername) := by
  constructor
  · unfold register
    by_cases h1 : pyStrip f.username = "" ∨ ¬ validRole f.role
    · rw [if_pos h1]
      rfl
    · rw [if_neg h1, if_pos hex]
      rfl
  · intro hu hvr
    unfold register
    rw [if_neg (by simp [hu, hvr] :
      ¬ (pyStrip f.username = "" ∨ ¬ validRole f.role)), if_pos hex]

/-- Witness for C4's amended statement: re-registering `bob` as a reader is
rejected with DuplicateUsername. -/
theorem duplicate_username_rejected_witness :
    (register dbBob formBobReader "S2" 2).1.isSuccess = false
  ∧ (register dbBob formBobReader "S2" 2).1 = .duplicateUsername := by
  exact ⟨(duplicate_username_rejected dbBob formBobReader "S2" 2 (by decide)).1,
    (duplicate_username_rejected dbBob formBobReader "S2" 2 (by decide)).2
      (by decide) (Or.inl rfl)⟩

/-- C5: for a login attempt that resolves an existing user, the password
check comes first: a failing password check yields InvalidCredentials
whatever the submitted code is; with a passing password check, an absent or
non-verifying code yields InvalidOrMissingCode, and a present verifying code
establishes the session referencing the user. -/
theorem login_password_before_code (db : DB) (uname pw code : String) (t : Nat)
    (user : User)
    (hfind : findUserByUsername db (pyStrip uname) = some user) :
    (check_password_hash user.password_hash pw = false →
      login db uname pw code t = .invalidCredentials)
  ∧ (check_password_hash user.password_hash pw = true →
      ((code = "" ∨ totp_verify user.otp_secret (timecode t) code = false) →
        login db uname pw code t = .invalidOrMissingCode)
    ∧ (code ≠ "" → totp_verify user.otp_secret (timecode t) code = true →
        login db uname pw code t = .success user.id)) := by
  simp only [login, hfind]
  constructor
  · intro hpw
    rw [if_pos (by simp [hpw])]
  · intro hpw
    constructor
    · intro hcode
      rw [if_neg (by simp [hpw])]
      rw [if_pos (by rcases hcode with h | h
                     · exact Or.inl h
                     · exact Or.inr (by simp [h]))]
    · intro hc hv
      rw [if_neg (by simp [hpw]), if_neg (by simp [hc, hv])]

/-- Witness for C5 at a concrete user: wrong password gives
InvalidCredentials, right password with missing code gives
InvalidOrMissingCode, right password and current code log in. -/
theorem login_password_before_code_witness :
    login dbLogin "neo" "oops" (generate_otp totpSecret 58000000) 1740000000
      = .invalidCredentials
  ∧ login dbLogin "neo" "pw" "" 1740000000 = .invalidOrMissingCode
  ∧ login dbLogin "neo" "pw" (generate_otp totpSecret 58000000) 1740000000
      = .success 7 := by
  refine ⟨?_, ?_, ?_⟩
  · exact (login_password_before_code dbLogin "neo" "oops"
      (generate_otp totpSecret 58000000) 1740000000 neo (by decide)).1 (by decide)
  · exact ((login_password_before_code dbLogin "neo" "pw" "" 1740000000 neo
      (by decide)).2 (by decide)).1 (Or.inl rfl)
  · exact ((login_password_before_code dbLogin "neo" "pw"
      (generate_otp totpSecret 58000000) 1740000000 neo (by decide)).2
      (by decide)).2 (by decide) (by decide)

theorem digitChar_isDigit_of_lt_ten (d : Nat) (h : d < 10) :
    (Nat.digitChar d).isDigit = true := by
  interval_cases d <;> decide

theorem zfill6_length (n : Nat) : (zfill6 n).length = 6 := rfl

theorem zfill6_all_digits (n : Nat) : (zfill6 n).toList.all Char.isDigit = true := by
  show List.all [_, _, _, _, _, _] Char.isDigit = true
  simp only [List.all_cons, List.all_nil, Bool.and_eq_true, Bool.and_true]
  refine ⟨?_, ?_, ?_, ?_, ?_, ?_⟩ <;>
    exact digitChar_isDigit_of_lt_ten _ (Nat.mod_lt _ (by decide))

/-- C6: one-time-code verification accepts exactly the codes of the current
30-second time step and the two adjacent steps.  For a counter at least 1
the window is the three genuinely adjacent counters; the accepted set is
exactly the three derived 6-digit numeric codes, and through `login` a
correct password with a code in that window succeeds while a correct
password with any code outside it (expired or wrong) fails with
InvalidOrMissingCode. -/
theorem totp_window_acceptance (secret : String) (tc : Nat) (htc : 1 ≤ tc) :
    (tc - 1 < tc ∧ tc < tc + 1)
  ∧ (∀ code, totp_verify secret tc code = true ↔
      (code = generate_otp secret (tc - 1) ∨ code = generate_otp secret tc ∨
       code = generate_otp secret (tc + 1)))
  ∧ (∀ c, (generate_otp secret c).length = 6 ∧
      (generate_otp secret c).toList.all Char.isDigit = true)
  ∧ (∀ (db : DB) (uname pw : String) (t : Nat) (user : User),
      timecode t = tc →
      findUserByUsername db (pyStrip uname) = some user →
      user.otp_secret = secret →
      check_password_hash user.password_hash pw = true →
      (∀ code,
        (code = generate_otp secret (tc - 1) ∨ code = generate_otp secret tc ∨
         code = generate_otp secret (tc + 1)) →
        login db uname pw code t = .success user.id)
    ∧ (∀ code,
        ¬ (code = generate_otp secret (tc - 1) ∨ code = generate_otp secret tc ∨
           code = generate_otp secret (tc + 1)) →
        login db uname pw code t = .invalidOrMissingCode)) := by
  have hwin : ∀ code, totp_verify secret tc code = true ↔
      (code = generate_otp secret (tc - 1) ∨ code = generate_otp secret tc ∨
       code = generate_otp secret (tc + 1)) := by
    intro code
    simp [totp_verify, Bool.or_eq_true, beq_iff_eq, or_assoc]
  refine ⟨⟨Nat.sub_lt htc Nat.one_pos, Nat.lt_succ_self tc⟩, hwin,
    fun c => ⟨zfill6_length _, zfill6_all_digits _⟩, ?_⟩
  intro db uname pw t user htcode hfind hsec hpw
  constructor
  · intro code hcode
    have hver : totp_verify user.otp_secret (timecode t) code = true := by
      rw [hsec, htcode]
      exact (hwin code).mpr hcode
    have hlen : code.length = 6 := by
      rcases hcode with h | h | h <;> rw [h] <;> exact zfill6_length _
    have hne : code ≠ "" := by
      intro h0
      rw [h0] at hlen
      exact absurd hlen (by decide)
    simp only [login, hfind]
    rw [if_neg (by simp [hpw]), if_neg (by simp [hne, hver])]
  · intro code hncode
    have hver : totp_verify user.otp_secret (timecode t) code = false := by
      rw [hsec, htcode]
      exact Bool.eq_false_iff.mpr (fun hcon => hncode ((hwin code).mp hcon))
    simp only [login, hfind]
    rw [if_neg (by simp [hpw]), if_pos (Or.inr (by simp [hver]))]

/-- Witness for C6: at time step 58000000, the adjacent-step code logs `neo`
in and a five-steps-stale code is rejected with InvalidOrMissingCode. -/
theorem totp_window_acceptance_witness :
    login dbLogin "neo" "pw" (generate_otp totpSecret 58000001) 1740000000
      = .success 7
  ∧ login dbLogin "neo" "pw" (generate_otp totpSecret 57999995) 1740000000
      = .invalidOrMissingCode := by
  constructor
  · exact ((totp_window_acceptance totpSecret 58000000 (by decide)).2.2.2 dbLogin
      "neo" "pw" 1740000000 neo (by decide) (by decide) rfl (by decide)).1
      (generate_otp totpSecret 58000001) (Or.inr (Or.inr rfl))
  · exact ((totp_window_acceptance totpSecret 58000000 (by decide)).2.2.2 dbLogin
      "neo" "pw" 1740000000 neo (by decide) (by decide) rfl (by decide)).2
      (generate_otp totpSecret 57999995) (by decide)

/-- C7: round-trip of the one-time-code secret.  For any successful
registration, the stored secret is exactly the generated one, the code that
the same derivation produces at the current time step always verifies, and
logging in immediately after registration with that code and the
registration password succeeds. -/
theorem totp_roundtrip (db : DB) (f : RegisterForm) (s : String) (n t : Nat)
    (h : (register db f s n).1.isSuccess = true) :
    totp_verify s (timecode t) (generate_otp s (timecode t)) = true
  ∧ (newUserOf f s n).otp_secret = s
  ∧ login (register db f s n).2 f.username f.password
      (generate_otp s (timecode t)) t = .success n := by
  obtain ⟨-, husers, hnone, -, -, -, -, -, -, -, -, -⟩ :=
    register_success_shape db f s n h
  have hver : totp_verify s (timecode t) (generate_otp s (timecode t)) = true := by
    simp [totp_verify]
  refine ⟨hver, rfl, ?_⟩
  have hfind : findUserByUsername (register db f s n).2 (pyStrip f.username)
      = some (newUserOf f s n) := by
    unfold findUserByUsername at hnone ⊢
    rw [husers, List.find?_append, hnone]
    rw [List.find?_cons_of_pos _ (by simp [newUserOf])]
    rfl
  have hne : generate_otp s (timecode t) ≠ "" := by
    intro h0
    have h6 : (generate_otp s (timecode t)).length = 6 := zfill6_length _
    rw [h0] at h6
    exact absurd h6 (by decide)
  simp only [login, hfind]
  rw [if_neg (by simp [newUserOf, check_password_hash]),
    if_neg (by simp [hne, newUserOf, hver])]
  rfl

/-- Witness for C7: registering `acme.com` with a fresh secret and logging
in right away with the derived current-step code succeeds. -/
theorem totp_roundtrip_witness :
    login (register dbAcme formAcme "FRESHSECRET" 1).2 formAcme.username
      formAcme.password (generate_otp "FRESHSECRET" (timecode 1740000000))
      1740000000 = .success 1 := by
  exact (totp_roundtrip dbAcme formAcme "FRESHSECRET" 1 1740000000 (by decide)).2.2

/-- C8: for every registration attempt that passes all checks, the created
user row's moderator flag is exactly the truthiness of the client-supplied
`is_moderator` form field — absent or empty means false, any non-empty value
means true — with no role restriction or other gate. -/
theorem moderator_flag_from_form (db : DB) (f : RegisterForm) (s : String) (n : Nat)
    (h : (register db f s n).1.isSuccess = true) :
    (register db f s n).2.users = db.users ++ [newUserOf f s n]
  ∧ (newUserOf f s n).is_moderator = pyTruthy f.is_moderator
  ∧ pyTruthy none = false
  ∧ pyTruthy (some "") = false
  ∧ (∀ v : String, v ≠ "" → pyTruthy (some v) = true) := by
  refine ⟨(register_success_shape db f s n h).2.1, rfl, rfl, rfl, ?_⟩
  intro v hv
  simp [pyTruthy, hv]

/-- Witness for C8: a plain reader registration that submits
`is_moderator=on` creates a user whose moderator flag is set. -/
theorem moderator_flag_from_form_witness :
    (register dbEmpty formModReader "S" 1).2.users =
      dbEmpty.users ++ [newUserOf formModReader "S" 1]
  ∧ (newUserOf formModReader "S" 1).is_moderator = true := by
  constructor
  · exact (moderator_flag_from_form dbEmpty formModReader "S" 1 (by decide)).1
  · rw [(moderator_flag_from_form dbEmpty formModReader "S" 1 (by decide)).2.1]
    decide

/-- C9: a login attempt whose username matches no user fails with the
distinct user-not-found outcome, for every password and code (neither check
is reached, so the result does not depend on them), and that outcome differs
from InvalidCredentials, InvalidOrMissingCode and every success — the
response therefore reveals whether the username exists. -/
theorem login_unknown_username (db : DB) (uname : String)
    (h : findUserByUsername db (pyStrip uname) = none) :
    (∀ pw code t, login db uname pw code t = .userNotFound)
  ∧ LoginResult.userNotFound ≠ .invalidCredentials
  ∧ LoginResult.userNotFound ≠ .invalidOrMissingCode
  ∧ (∀ uid, LoginResult.userNotFound ≠ .success uid)
  ∧ (∀ pw₁ code₁ t₁ pw₂ code₂ t₂,
      login db uname pw₁ code₁ t₁ = login db uname pw₂ code₂ t₂) := by
  have hl : ∀ pw code t, login db uname pw code t = .userNotFound := by
    intro pw code t
    simp [login, h]
  exact ⟨hl, by decide, by decide, fun uid h' => LoginResult.noConfusion h',
    fun pw₁ code₁ t₁ pw₂ code₂ t₂ => (hl pw₁ code₁ t₁).trans (hl pw₂ code₂ t₂).symm⟩

/-- Witness for C9: an unknown username gets user-not-found under two
different password/code submissions. -/
theorem login_unknown_username_witness :
    login dbLogin "trinity" "pw" "123456" 1740000000 = .userNotFound
  ∧ login dbLogin "trinity" "other" "" 99 = .userNotFound := by
  exact ⟨(login_unknown_username dbLogin "trinity" (by decide)).1 "pw" "123456"
      1740000000,
    (login_unknown_username dbLogin "trinity" (by decide)).1 "other" "" 99⟩

/-- C10: the creator domain is the last `'@'`-separated segment of the
email: for an email with no `'@'` the whole email is the domain (the check
is total and a username equal to the full email string passes it, so such a
creator registration succeeds), and for an email with several `'@'`
characters the domain is exactly the text after the last `'@'`. -/
theorem email_domain_last_segment :
    (∀ e : String, '@' ∉ e.toList → emailDomain e = e)
  ∧ (∀ a b : List Char, '@' ∉ b →
      emailDomain (String.mk (a ++ '@' :: b)) = String.mk b)
  ∧ (∀ (db : DB) (f : RegisterForm) (s : String) (n : Nat),
      f.role = some "creator" →
      '@' ∉ (pyStrip f.email).toList →
      pyStrip f.username = pyStrip f.email →
      findUserByUsername db (pyStrip f.username) = none →
      f.password ≠ "" →
      findUserByEmail db (pyStrip f.email) = none →
      pyStrip f.email ≠ "" →
      pyStrip f.creator_key ≠ "" →
      (db.creator_invites.find?
        (creatorInviteMatches (pyStrip f.email) (pyStrip f.creator_key))).isSome
        = true →
      (register db f s n).1 = .success n) := by
  have h1 : ∀ e : String, '@' ∉ e.toList → emailDomain e = e := by
    intro e he
    unfold emailDomain
    rw [pySplit_no_sep '@' e.toList he, List.getLastD_cons]
    exact mk_toList e
  have h2 : ∀ a b : List Char, '@' ∉ b →
      emailDomain (String.mk (a ++ '@' :: b)) = String.mk b := by
    intro a b hb
    unfold emailDomain
    have hto : (String.mk (a ++ '@' :: b)).toList = a ++ '@' :: b := rfl
    rw [hto, pySplit_append_sep '@' a b hb]
  refine ⟨h1, h2, ?_⟩
  intro db f s n hrole hno hun hdupU hpw hdupE he hk hinv
  have hu : pyStrip f.username ≠ "" := by
    rw [hun]
    exact he
  exact (register_creator_gate db f s n hrole hu hdupU hpw hdupE he hk hinv).1.mpr
    (by rw [hun, h1 _ hno])

/-- Witness for C10: `acme.com` is its own domain, the last segment of a
double-`'@'` address is its domain, and the `'@'`-less creator registration
with username equal to the whole email succeeds. -/
theorem email_domain_last_segment_witness :
    emailDomain "acme.com" = "acme.com"
  ∧ emailDomain (String.mk ("a@b".toList ++ '@' :: "corp.io".toList))
      = String.mk "corp.io".toList
  ∧ String.mk ("a@b".toList ++ '@' :: "corp.io".toList) = "a@b@corp.io"
  ∧ (register dbNoAt formNoAt "S" 1).1 = .success 1 := by
  refine ⟨email_domain_last_segment.1 "acme.com" (by decide),
    email_domain_last_segment.2.1 "a@b".toList "corp.io".toList (by decide),
    by decide, ?_⟩
  exact email_domain_last_segment.2.2 dbNoAt formNoAt "S" 1 rfl (by decide) rfl
    (by decide) (by decide) (by decide) (by decide) (by decide) (by decide)

end Forum
